import Mathlib

/-!
# django-roa : remote-object persistence core, shallow embedding

This file embeds the persistence core of the `django-roa` repository
(`django_roa/db/models.py` and `django_roa/db/exceptions.py`) in Lean 4 and
proves/refutes the frozen claims about it.

Conventions of the embedding:

* Machine state is passed explicitly.  An entity is a finite attribute map;
  `save_base` and `delete` return both an outcome and the list of HTTP
  requests issued, in order.
* The HTTP transport (the bundled `restkit` library: only the names its
  `__init__.py` pulls in are in the tree) is a deterministic oracle
  `Server : Method → String → Except TransportError String`.  The error
  taxonomy is modelled from the spec (see `TransportError`).
* String manipulation mirrors Python semantics (`str.replace`,
  `str.split(sep, 1)`, `str.strip`, `django.utils.html.strip_tags`) with
  list-of-characters functions that compute by kernel reduction.
* Signals (`pre_save`/`post_save`), headers, filters, custom GET arguments
  and the serialization-format flag decorate every request identically and
  are never branched on by the code under study, so they are not modelled.
  Proxy models and `raw` saves are outside every claim and are not modelled
  (`save()` always calls `save_base` with `raw=False`).
-/

/-! ## Python-style string primitives (on `List Char`) -/

/-- One non-overlapping left-to-right replacement pass, Python
`s.replace(pat, rep)` for a non-empty pattern.  The fuel is the length of
the remaining string: each step consumes at least one character. -/
def pyReplaceAux (pat rep : List Char) : Nat → List Char → List Char
  | 0, s => s
  | _ + 1, [] => []
  | fuel + 1, c :: cs =>
      if pat ≠ [] && pat.isPrefixOf (c :: cs) then
        rep ++ pyReplaceAux pat rep fuel ((c :: cs).drop pat.length)
      else
        c :: pyReplaceAux pat rep fuel cs

/-- Python `s.replace("", rep)` inserts `rep` before every character and at
the end. -/
def interleaveRep (rep : List Char) : List Char → List Char
  | [] => rep
  | c :: cs => rep ++ c :: interleaveRep rep cs

/-- Python `s.replace(pat, rep)`: every literal, non-overlapping occurrence
of `pat` in `s`, scanned left to right, is replaced by `rep`. -/
def pyReplace (s pat rep : String) : String :=
  if pat.data = [] then ⟨interleaveRep rep.data s.data⟩
  else ⟨pyReplaceAux pat.data rep.data s.data.length s.data⟩

/-- Python `s.split(sep, 1)` when the separator occurs: the text before the
first occurrence and the text after it.  `none` when `sep` does not occur
(where Python returns a one-element list, so indexing `[1]` raises). -/
def splitOnceAux (sep : List Char) : Nat → List Char → Option (List Char × List Char)
  | 0, _ => none
  | _ + 1, [] => none
  | fuel + 1, c :: cs =>
      if sep.isPrefixOf (c :: cs) then
        some ([], (c :: cs).drop sep.length)
      else
        (splitOnceAux sep fuel cs).map (fun p => (c :: p.1, p.2))

def splitOnce (s sep : String) : Option (String × String) :=
  (splitOnceAux sep.data (s.data.length + 1) s.data).map (fun p => (⟨p.1⟩, ⟨p.2⟩))

/-- Python `s.split(sep, 1)[0]`: everything before the first occurrence of
the separator, or the whole string when the separator is absent. -/
def pySplitBefore (s sep : String) : String :=
  match splitOnce s sep with
  | some p => p.1
  | none => s

/-- Split on every occurrence of one character, Python `s.split(c)`. -/
def splitOnCharAux (sep : Char) : List Char → List Char → List (List Char)
  | [], acc => [acc.reverse]
  | c :: cs, acc =>
      if c = sep then acc.reverse :: splitOnCharAux sep cs []
      else splitOnCharAux sep cs (c :: acc)

def splitOnChar (sep : Char) (s : String) : List String :=
  (splitOnCharAux sep s.data []).map (fun l => ⟨l⟩)

def isPySpace (c : Char) : Bool :=
  c = ' ' || c = '\t' || c = '\n' || c = '\x0d'

def dropLeadingSpaces : List Char → List Char
  | [] => []
  | c :: cs => if isPySpace c then dropLeadingSpaces cs else c :: cs

/-- Python `s.strip()` for the common whitespace characters. -/
def pyStrip (s : String) : String :=
  ⟨(dropLeadingSpaces (dropLeadingSpaces s.data).reverse).reverse⟩

/-- Last character of a string, if any. -/
def lastChar (s : String) : Option Char :=
  s.data.reverse.head?

/-! ## django.utils.html.strip_tags (external collaborator)

Modelled from the spec: the spec's §7 error summary extraction relies on the
host framework's `strip_tags` helper (not part of this repository), which
removes every complete `<...>` tag from the text; an unterminated `<` is left
in place (the underlying regex finds no match). -/

def dropTag : List Char → Option (List Char)
  | [] => none
  | c :: cs => if c = '>' then some cs else dropTag cs

def stripTagsAux : Nat → List Char → List Char
  | 0, s => s
  | _ + 1, [] => []
  | fuel + 1, c :: cs =>
      if c = '<' then
        match dropTag cs with
        | some rest => stripTagsAux fuel rest
        | none => c :: cs
      else
        c :: stripTagsAux fuel cs

def stripTags (s : String) : String :=
  ⟨stripTagsAux s.data.length s.data⟩

/-! ## Payload Codec decode (external collaborator)

Modelled from the spec: the Payload Codec (§4.2 — `parse(bytes) ->
structured_data` plus the deserializer that turns parsed data into an
attribute mapping; `get_parser`/`get_serializer` are supplied by a mixin
that is not in the tree) decodes a flat serialized object into one scalar
value per field.  Scalars are carried as strings; `null` decodes to the
null marker `none`.  A body that is not a flat object fails to decode. -/

def skipSpaces : List Char → List Char
  | [] => []
  | c :: cs => if isPySpace c then skipSpaces cs else c :: cs

/-- Consume a string literal body after its opening quote (no escapes). -/
def parseStringBody : List Char → Option (List Char × List Char)
  | [] => none
  | c :: cs =>
      if c = '"' then some ([], cs)
      else (parseStringBody cs).map (fun p => (c :: p.1, p.2))

/-- Consume a run of decimal digits. -/
def parseDigits : List Char → List Char × List Char
  | [] => ([], [])
  | c :: cs =>
      if c.isDigit then
        let p := parseDigits cs
        (c :: p.1, p.2)
      else
        ([], c :: cs)

/-- Consume one scalar value: a quoted string, `null`, or a number. -/
def parseValue (s : List Char) : Option (Option String × List Char) :=
  match skipSpaces s with
  | '"' :: rest =>
      (parseStringBody rest).map (fun p => (some (⟨p.1⟩ : String), p.2))
  | 'n' :: 'u' :: 'l' :: 'l' :: rest => some (none, rest)
  | other =>
      match parseDigits other with
      | ([], _) => none
      | (ds, rest) => some (some (⟨ds⟩ : String), rest)

/-- Consume `"key": value` pairs separated by commas, up to the closing
brace.  The fuel bounds the number of pairs. -/
def parsePairsAux : Nat → List Char → Option (List (String × Option String) × List Char)
  | 0, _ => none
  | fuel + 1, s =>
      match skipSpaces s with
      | '"' :: rest =>
          match parseStringBody rest with
          | none => none
          | some (key, afterKey) =>
              match skipSpaces afterKey with
              | ':' :: afterColon =>
                  match parseValue afterColon with
                  | none => none
                  | some (value, afterValue) =>
                      match skipSpaces afterValue with
                      | ',' :: more =>
                          (parsePairsAux fuel more).map
                            (fun p => ((⟨key⟩, value) :: p.1, p.2))
                      | '\x7d' :: more => some ([(⟨key⟩, value)], more)
                      | _ => none
              | _ => none
      | _ => none

/-- Decode a flat serialized object into an attribute mapping. -/
def decodeBody (body : String) : Option (List (String × Option String)) :=
  match skipSpaces body.data with
  | '\x7b' :: rest =>
      match skipSpaces rest with
      | '\x7d' :: tail => if skipSpaces tail = [] then some [] else none
      | _ =>
          match parsePairsAux (body.data.length + 1) rest with
          | some (attrs, tail) => if skipSpaces tail = [] then some attrs else none
          | none => none
  | _ => none

/-! ## Name remapping (models.py:409-410)

`for local_name, remote_name in ROA_MODEL_NAME_MAPPING: response =
response.replace(remote_name, local_name)` — a left fold of literal
substring replacement over the configured pairs, applied to the raw response
body before structural decoding. -/

def remapResponse (mapping : List (String × String)) (body : String) : String :=
  mapping.foldl (fun acc p => pyReplace acc p.2 p.1) body

/-! ## ROAException (exceptions.py:6-33) -/

/-- First marker of a recognized framework diagnostic HTML page
(exceptions.py:19). -/
def djangoMarkerStart : String := "<body>\n<div id=\"summary\">\n  "

/-- End marker of the summary block (exceptions.py:20). -/
def djangoMarkerEnd : String := "<th>Python Executable:</th>"

/-- One step of the summary line loop (exceptions.py:23-31): the state is
the collected `title: detail` pairs and the current title. -/
def summaryLineStep (st : List String × Option String) (line : String) :
    List String × Option String :=
  let lineContent := pyStrip line
  if lineContent = "" then st
  else if lastChar lineContent = some ':' then (st.1, some lineContent)
  else
    match st.2 with
    | none => (st.1, some (lineContent ++ ":"))
    | some title => (st.1 ++ [title ++ " " ++ lineContent ++ "\n"], some title)

/-- The method `ROAException.parse_django_error` (exceptions.py:17-33).
`self.message.split(marker, 1)[1]` raises `IndexError` when the start
marker is absent, modelled as `none`. -/
def parse_django_error (message : String) (statusCode : Nat) : Option String :=
  match splitOnce message djangoMarkerStart with
  | none => none
  | some (_, afterStart) =>
      let summary := pySplitBefore afterStart djangoMarkerEnd
      let lines := splitOnChar '\n' (stripTags summary)
      let result := (lines.foldl summaryLineStep ([], none)).1
      some (String.intercalate " " (result ++ ["Status code: " ++ toString statusCode]))

/-- The string form `str(ROAException)` (exceptions.py:14-15), for an exception built from a
`RequestFailed` carrying `message` and `statusCode`.  With the
`ROA_DJANGO_ERRORS` flag the result is
`self.parse_django_error() or self.message` (the raw message only when the
parsed summary is the empty string); `none` models the `IndexError` escaping
`parse_django_error` on an unrecognized body.  Without the flag the raw
message is returned unchanged. -/
def roaExceptionStr (djangoErrors : Bool) (message : String) (statusCode : Nat) :
    Option String :=
  if djangoErrors then
    (parse_django_error message statusCode).map (fun s => if s = "" then message else s)
  else
    some message

/-! ## Transport Client (adapter over the bundled restkit library)

Modelled from the spec: `restkit`'s error classes are only declared in the
tree through the import list of `libs/restkit/__init__.py`
(`ResourceNotFound, Unauthorized, RequestFailed, RedirectLimit, ...`); the
spec (§4.3, §6) requires distinguishable error kinds for "not found", any
other non-2xx failure, and a redirect-limit violation.  The persistence core
catches exactly `ResourceNotFound` and `RequestFailed` by name, so the model
keeps those two plus `redirectLimit` as a representative of the remaining
distinguishable transport failures. -/

inductive Method where
  | get
  | post
  | put
  | delete
deriving DecidableEq

structure Request where
  method : Method
  url : String
deriving DecidableEq

inductive TransportError where
  | resourceNotFound
  | requestFailed (message : String) (statusCode : Nat)
  | redirectLimit
deriving DecidableEq

/-- A deterministic remote server: each verb/URL pair yields either a 2xx
response body or a transport error. -/
abbrev Server := Method → String → Except TransportError String

/-! ## Data model -/

/-- An entity: a finite map from attribute names (`attname`s) to scalar
values, `none` being the null marker. -/
structure Entity where
  attrs : List (String × Option String)
deriving DecidableEq

/-- Python `getattr(self, a)`: the first binding of `a`, null if absent. -/
def Entity.get (e : Entity) (a : String) : Option String :=
  match e.attrs.lookup a with
  | some v => v
  | none => none

/-- Python `setattr(self, a, v)`: the new binding shadows any older one. -/
def Entity.set (e : Entity) (a : String) (v : Option String) : Entity :=
  ⟨(a, v) :: e.attrs⟩

/-- A declared model type: identity (`app_label`, `module_name`), the
primary-key attribute name, the value of the type's default static
`get_resource_url_list`, and its concrete multi-table parents
(`meta.parents`: parent type paired with the parent-link field's attname,
`none` for a proxy-style link-less entry). -/
inductive EType where
  | mk (appLabel moduleName pkAttname defaultListUrl : String)
       (parents : List (EType × Option String)) : EType

def EType.appLabel : EType → String
  | .mk a _ _ _ _ => a

def EType.moduleName : EType → String
  | .mk _ m _ _ _ => m

def EType.pkAttname : EType → String
  | .mk _ _ p _ _ => p

def EType.defaultListUrl : EType → String
  | .mk _ _ _ u _ => u

def EType.parents : EType → List (EType × Option String)
  | .mk _ _ _ _ ps => ps

/-- Process-wide read-only configuration (settings read at import time in
models.py:27-33,454-456).  Headers, filters, custom GET arguments and the
format flag decorate every request identically and are not modelled. -/
structure Config where
  nameMapping : List (String × String)
  urlOverridesList : List (String × String)
deriving DecidableEq

/-! ## URL Resolver -/

/-- The resolved list URL together with whether the type's own default
provider was invoked to produce it. -/
structure UrlResult where
  url : String
  defaultInvoked : Bool
deriving DecidableEq

/-- The `get_resource_url_list` helper (models.py:459-462):
`overridden = ROA_URL_OVERRIDES_LIST.get(key, False)` followed by
`overridden and overridden or func(*args, **kwargs)` — the override wins
only when it is truthy; a missing key or a falsy entry (the empty string)
invokes the default provider. -/
def get_resource_url_list (cfg : Config) (ty : EType) : UrlResult :=
  let key := ty.appLabel ++ "." ++ ty.moduleName
  match cfg.urlOverridesList.lookup key with
  | some overridden =>
      if overridden = "" then ⟨ty.defaultListUrl, true⟩ else ⟨overridden, false⟩
  | none => ⟨ty.defaultListUrl, true⟩

/-- Python `"%s" % pk` renders the null marker as the text `None`. -/
def pkText : Option String → String
  | some v => v
  | none => "None"

/-- The method `ROAModel.get_resource_url_detail` (models.py:304-305):
`"%s%s/" % (self.get_resource_url_list(), self.pk)`.  Both the list URL and
`self.pk` resolve against the instance's own class (`instTy`), even while a
parent slice is being saved. -/
def get_resource_url_detail (cfg : Config) (instTy : EType) (e : Entity) : String :=
  (get_resource_url_list cfg instTy).url ++ pkText (e.get instTy.pkAttname) ++ "/"

/-! ## Persistence Core — save -/

instance exceptDecEq {ε α : Type} [DecidableEq ε] [DecidableEq α] :
    DecidableEq (Except ε α)
  | .ok a, .ok b =>
      if h : a = b then .isTrue (by rw [h]) else .isFalse (by simp [h])
  | .ok _, .error _ => .isFalse (by simp)
  | .error _, .ok _ => .isFalse (by simp)
  | .error a, .error b =>
      if h : a = b then .isTrue (by rw [h]) else .isFalse (by simp [h])

/-- How a save invocation can abort.  `assertionFailed` is the
`assert not (force_insert and force_update)` of models.py:315;
`roaException` wraps a caught `RequestFailed` (models.py:390-391,404-405);
`transport` is any restkit error the core does not catch and therefore
propagates raw; `invalidDeserialization` is models.py:415-416.  Every error
carries the entity state at the moment of the raise. -/
inductive SaveError where
  | assertionFailed
  | roaException (e : TransportError)
  | transport (e : TransportError)
  | invalidDeserialization
deriving DecidableEq

/-- Outcome of `save_base`: on success the reconciled entity and the
`record_exists` flag (models.py:379,393), plus the ordered request trace. -/
structure SaveOutcome where
  result : Except (SaveError × Entity) (Entity × Bool)
  trace : List Request
deriving DecidableEq

/-- Outcome of the parent-resolution loop. -/
structure ParentsOutcome where
  result : Except (SaveError × Entity) Entity
  trace : List Request
deriving DecidableEq

/-- RECONCILE (models.py:407-418): apply the configured name remapping to the
raw response body, decode it, and on success replace the entity's attribute
values wholesale with the decoded ones (`self = serializer.object`; the
in-place replacement of the caller's attributes is the spec's §4.4.4
reading of the external serializer).  A decode failure raises
`ROAException('Invalid deserialization')` leaving the entity as it was. -/
def reconcile (cfg : Config) (e : Entity) (body : String) (recordExists : Bool) :
    Except (SaveError × Entity) (Entity × Bool) :=
  match decodeBody (remapResponse cfg.nameMapping body) with
  | some attrs => .ok (⟨attrs⟩, recordExists)
  | none => .error (.invalidDeserialization, e)

/-- DISPATCH (models.py:378-405): `if force_update or pk_is_set and not
self.pk is None` issue PUT to the detail URL, else POST to the list URL;
in both branches only a `RequestFailed` is caught and wrapped into a
`ROAException`, every other transport error propagates raw.  `self.pk`
reads the instance's own primary-key attribute (`instTy`), while `pk_is_set`
was computed from the slice being saved (`cls`). -/
def dispatchStep (srv : Server) (cfg : Config) (instTy : EType) (e : Entity)
    (forceUpdate pkIsSet : Bool) : SaveOutcome :=
  if forceUpdate || (pkIsSet && (e.get instTy.pkAttname).isSome) then
    let url := get_resource_url_detail cfg instTy e
    match srv .put url with
    | .ok body => ⟨reconcile cfg e body true, [⟨.put, url⟩]⟩
    | .error (.requestFailed m s) =>
        ⟨.error (.roaException (.requestFailed m s), e), [⟨.put, url⟩]⟩
    | .error err => ⟨.error (.transport err, e), [⟨.put, url⟩]⟩
  else
    let url := (get_resource_url_list cfg instTy).url
    match srv .post url with
    | .ok body => ⟨reconcile cfg e body false, [⟨.post, url⟩]⟩
    | .error (.requestFailed m s) =>
        ⟨.error (.roaException (.requestFailed m s), e), [⟨.post, url⟩]⟩
    | .error err => ⟨.error (.transport err, e), [⟨.post, url⟩]⟩

/-- DETERMINE_EXISTENCE and DISPATCH for one slice (models.py:354-418).
When the slice's primary-key attribute is not the conventional `pk`/`id`,
a preliminary GET probes the detail URL; `ResourceNotFound` and
`RequestFailed` flip `pk_is_set` to false (models.py:370-376), any other
transport error is not caught and propagates. -/
def sliceDispatch (srv : Server) (cfg : Config) (instTy cls : EType) (e : Entity)
    (forceUpdate : Bool) : SaveOutcome :=
  let pkIsSet := (e.get cls.pkAttname).isSome
  if cls.pkAttname = "pk" ∨ cls.pkAttname = "id" then
    dispatchStep srv cfg instTy e forceUpdate pkIsSet
  else
    let url := get_resource_url_detail cfg instTy e
    match srv .get url with
    | .ok _ =>
        let d := dispatchStep srv cfg instTy e forceUpdate pkIsSet
        ⟨d.result, ⟨.get, url⟩ :: d.trace⟩
    | .error .resourceNotFound =>
        let d := dispatchStep srv cfg instTy e forceUpdate false
        ⟨d.result, ⟨.get, url⟩ :: d.trace⟩
    | .error (.requestFailed _ _) =>
        let d := dispatchStep srv cfg instTy e forceUpdate false
        ⟨d.result, ⟨.get, url⟩ :: d.trace⟩
    | .error err => ⟨.error (.transport err, e), [⟨.get, url⟩]⟩

mutual

/-- The method `ROAModel.save_base` (models.py:307-424) for the slice `cls` of an
instance of type `instTy`, with explicit state passing: RESOLVE_PARENTS,
then DETERMINE_EXISTENCE / DISPATCH / RECONCILE for this slice.  The
recursive parent calls pass neither `force_insert` nor `force_update`
(models.py:347). -/
def save_base (srv : Server) (cfg : Config) (instTy : EType) (cls : EType)
    (e : Entity) (forceInsert forceUpdate : Bool) : SaveOutcome :=
  match cls with
  | .mk _ _ _ _ parents =>
      if forceInsert && forceUpdate then ⟨.error (.assertionFailed, e), []⟩
      else
        match saveParents srv cfg instTy parents e with
        | ⟨.error p, tr⟩ => ⟨.error p, tr⟩
        | ⟨.ok e1, tr⟩ =>
            let d := sliceDispatch srv cfg instTy cls e1 forceUpdate
            ⟨d.result, tr ++ d.trace⟩

/-- The loop over `meta.parents` (models.py:340-350): optionally backfill the
parent's pk from the link field, save the parent slice recursively, then
copy the parent's resolved pk into the link field. -/
def saveParents (srv : Server) (cfg : Config) (instTy : EType) :
    List (EType × Option String) → Entity → ParentsOutcome
  | [], e => ⟨.ok e, []⟩
  | (parent, fieldOpt) :: rest, e =>
      let e0 :=
        match fieldOpt with
        | some f =>
            if e.get parent.pkAttname = none ∧ (e.get f).isSome then
              e.set parent.pkAttname (e.get f)
            else e
        | none => e
      match save_base srv cfg instTy parent e0 false false with
      | ⟨.error p, tr⟩ => ⟨.error p, tr⟩
      | ⟨.ok (e1, _), tr⟩ =>
          let e2 :=
            match fieldOpt with
            | some f => e1.set f (e1.get parent.pkAttname)
            | none => e1
          match saveParents srv cfg instTy rest e2 with
          | ⟨.error p, tr2⟩ => ⟨.error p, tr ++ tr2⟩
          | ⟨.ok e3, tr2⟩ => ⟨.ok e3, tr ++ tr2⟩

end

/-- The entry point `Model.save()`: `save_base` on the instance's own class with `raw=False`
(the default), so the slice under save starts as the instance's type. -/
def save (srv : Server) (cfg : Config) (ty : EType) (e : Entity)
    (forceInsert forceUpdate : Bool) : SaveOutcome :=
  save_base srv cfg ty ty e forceInsert forceUpdate

/-! ## Persistence Core — delete (models.py:426-440) -/

inductive DeleteError where
  | preconditionFailed
  | transport (e : TransportError)
deriving DecidableEq

structure DeleteOutcome where
  result : Except DeleteError Unit
  trace : List Request
deriving DecidableEq

/-- The method `ROAModel.delete`: assert the primary key is set, then issue exactly one
DELETE to the detail URL; cascading deletion is left to the server
(models.py:431) and no request is made for related entities.  A transport
error from the DELETE is not caught and propagates. -/
def deleteEntity (srv : Server) (cfg : Config) (instTy : EType) (e : Entity) :
    DeleteOutcome :=
  if e.get instTy.pkAttname = none then ⟨.error .preconditionFailed, []⟩
  else
    let url := get_resource_url_detail cfg instTy e
    match srv .delete url with
    | .ok _ => ⟨.ok (), [⟨.delete, url⟩]⟩
    | .error err => ⟨.error (.transport err), [⟨.delete, url⟩]⟩

/-! ## Helper lemmas -/

/-- For a type without multi-table parents, `save` is the assertion check
followed by the single-slice dispatch. -/
theorem save_no_parents (srv : Server) (cfg : Config) (a m pkA u : String)
    (e : Entity) (fi fu : Bool) :
    save srv cfg (.mk a m pkA u []) e fi fu =
      if fi && fu then ⟨.error (.assertionFailed, e), []⟩
      else sliceDispatch srv cfg (.mk a m pkA u []) (.mk a m pkA u []) e fu := by
  by_cases h : fi && fu <;> simp [save, save_base, saveParents, h]

/-- How DISPATCH surfaces a transport failure (models.py:389-391,403-405):
only a `RequestFailed` is caught and wrapped into a `ROAException`; every
other restkit error escapes the `except RequestFailed` clause unchanged. -/
def dispatchErrorOf : TransportError → SaveError
  | .requestFailed m s => .roaException (.requestFailed m s)
  | err => .transport err

/-- Does a save outcome abort by raising a `ROAException`? -/
def raisedROAException (o : SaveOutcome) : Bool :=
  match o.result with
  | .error (.roaException _, _) => true
  | _ => false

/-! ## C10 -/

/-- C10: calling save() with both force_insert and force_update requested
aborts on the assertion of models.py:315 with no parent resolution and zero
network calls, whatever the server, configuration, type and entity. -/
theorem c10_force_insert_and_update_assert (srv : Server) (cfg : Config)
    (ty : EType) (e : Entity) :
    save srv cfg ty e true true = ⟨.error (.assertionFailed, e), []⟩ := by
  cases ty
  simp [save, save_base]

/-! ## C7 -/

/-- C7: during RECONCILE every literal substring occurrence of each
configured remote name is replaced by the local name in the raw response
body before structural decoding — including occurrences inside longer
words, as the replacement is not field-aware — and the example remapping
`[("local_title", "title")]` applied to the response body
`\x7b"title": "X"\x7d` decodes to the attribute `local_title = "X"`. -/
theorem c7_name_remapping_before_decode :
    remapResponse [("local_title", "title")] "\x7b\"title\": \"X\"\x7d" =
      "\x7b\"local_title\": \"X\"\x7d" ∧
    remapResponse [("local_title", "title")] "\x7b\"title\": \"A\", \"subtitle\": \"B\"\x7d" =
      "\x7b\"local_title\": \"A\", \"sublocal_title\": \"B\"\x7d" ∧
    reconcile ⟨[("local_title", "title")], []⟩ ⟨[]⟩ "\x7b\"title\": \"X\"\x7d" false =
      .ok (⟨[("local_title", some "X")]⟩, false) ∧
    (Entity.mk [("local_title", some "X")]).get "local_title" = some "X" := by
  decide

/-! ## C8 -/

/-- C8 counterexample: the claim fails when the override entry is the empty
string.  With the list-URL override table binding `"app.page"` to `""`,
resolution does not return the override value: the Python truthiness test
`overridden and overridden or func(...)` falls through and the type's own
default provider is invoked. -/
theorem c8_counterexample_falsy_override :
    (Config.mk [] [("app.page", "")]).urlOverridesList.lookup "app.page" = some "" ∧
    get_resource_url_list ⟨[], [("app.page", "")]⟩ (.mk "app" "page" "id" "http://s/p/" []) =
      ⟨"http://s/p/", true⟩ ∧
    ("http://s/p/" : String) ≠ "" := by
  decide

/-- C8 amended: for every type whose fully-qualified key has a non-empty
(truthy) entry in the list-URL override table, resolving the list URL
returns the override value and never invokes the type's own default
provider; a falsy entry (the empty string) behaves as if absent and the
default provider is invoked. -/
theorem c8_truthy_override_wins (cfg : Config) (ty : EType) (v : String)
    (hov : cfg.urlOverridesList.lookup (ty.appLabel ++ "." ++ ty.moduleName) = some v)
    (hne : v ≠ "") :
    get_resource_url_list cfg ty = ⟨v, false⟩ := by
  simp [get_resource_url_list, hov, hne]

/-- C8 witness. -/
theorem c8_truthy_override_wins_witness :
    get_resource_url_list ⟨[], [("app.page", "http://o/p/")]⟩
        (.mk "app" "page" "id" "http://s/p/" []) = ⟨"http://o/p/", false⟩ :=
  c8_truthy_override_wins ⟨[], [("app.page", "http://o/p/")]⟩
    (.mk "app" "page" "id" "http://s/p/" []) "http://o/p/" (by decide) (by decide)

/-! ## C9 -/

/-- C9 counterexample: the string form of a `ROAException` built from a
`RequestFailed` depends on the `ROA_DJANGO_ERRORS` flag, and under neither
value of the flag does the claim hold.  With the flag enabled, an
unrecognized body does not yield the raw message: `parse_django_error`
indexes `split(marker, 1)[1]` and raises `IndexError` (modelled `none`).
With the flag disabled, a recognized diagnostic body yields the raw HTML
unchanged rather than the extracted pairs with a trailing status line. -/
theorem c9_counterexample_flag_dependent :
    roaExceptionStr true "Internal Server Error" 500 = none ∧
    none ≠ some ("Internal Server Error" : String) ∧
    roaExceptionStr false
      "junk<body>\n<div id=\"summary\">\n  <h1>ValueError at /foo:</h1>\n<p>boom</p>\n<th>Python Executable:</th>tail"
      500 =
      some "junk<body>\n<div id=\"summary\">\n  <h1>ValueError at /foo:</h1>\n<p>boom</p>\n<th>Python Executable:</th>tail" ∧
    ("junk<body>\n<div id=\"summary\">\n  <h1>ValueError at /foo:</h1>\n<p>boom</p>\n<th>Python Executable:</th>tail" : String) ≠
      "ValueError at /foo: boom\n Status code: 500" := by
  decide

/-- C9 amended: with HTML-aware error parsing disabled the string form of a
`ROAException` built from a `RequestFailed` is the raw failure message
unchanged, for every body; with it enabled, a recognized diagnostic HTML
body yields the extracted title/detail pairs followed by a trailing status
code line, while an unrecognized body makes `parse_django_error` fail with
an `IndexError` (no string form) instead of falling back to the raw
message. -/
theorem c9_string_form_by_flag :
    (∀ message statusCode,
      roaExceptionStr false message statusCode = some message) ∧
    roaExceptionStr true
      "junk<body>\n<div id=\"summary\">\n  <h1>ValueError at /foo:</h1>\n<p>boom</p>\n<th>Python Executable:</th>tail"
      500 = some "ValueError at /foo: boom\n Status code: 500" ∧
    roaExceptionStr true "Internal Server Error" 500 = none := by
  refine ⟨fun message statusCode => ?_, by decide, by decide⟩
  simp [roaExceptionStr]

/-! ## C5 -/

/-- C5: delete() on an entity whose primary key is null aborts on the
assertion of models.py:427 with zero network calls; on an entity with a
non-null primary key it issues exactly one DELETE request, to the detail
URL, whatever the server answers — in particular no request for related
entities is ever issued (cascading deletion is left to the server,
models.py:431). -/
theorem c5_delete_protocol (srv : Server) (cfg : Config) (ty : EType) (e : Entity) :
    (e.get ty.pkAttname = none →
      deleteEntity srv cfg ty e = ⟨.error .preconditionFailed, []⟩) ∧
    ((e.get ty.pkAttname).isSome →
      (deleteEntity srv cfg ty e).trace =
        [⟨.delete, get_resource_url_detail cfg ty e⟩]) := by
  constructor
  · intro h
    simp [deleteEntity, h]
  · intro h
    have hne : ¬ e.get ty.pkAttname = none := by
      cases hv : e.get ty.pkAttname with
      | none => rw [hv] at h; simp at h
      | some v => simp
    cases hd : srv .delete (get_resource_url_detail cfg ty e) <;>
      simp [deleteEntity, hne, hd]

/-- C5 witness: a null-pk entity aborts with an empty trace; a non-null-pk
entity issues the single DELETE to its detail URL. -/
theorem c5_delete_protocol_witness :
    deleteEntity (fun _ _ => .ok "") ⟨[], []⟩ (.mk "app" "page" "id" "http://s/p/" [])
        ⟨[("id", none)]⟩ = ⟨.error .preconditionFailed, []⟩ ∧
    (deleteEntity (fun _ _ => .ok "") ⟨[], []⟩ (.mk "app" "page" "id" "http://s/p/" [])
        ⟨[("id", some "3")]⟩).trace = [⟨.delete, "http://s/p/3/"⟩] :=
  ⟨(c5_delete_protocol (fun _ _ => .ok "") ⟨[], []⟩ (.mk "app" "page" "id" "http://s/p/" [])
      ⟨[("id", none)]⟩).1 (by decide),
   by
     have h := (c5_delete_protocol (fun _ _ => .ok "") ⟨[], []⟩
       (.mk "app" "page" "id" "http://s/p/" []) ⟨[("id", some "3")]⟩).2 (by decide)
     simpa [get_resource_url_detail, get_resource_url_list, EType.pkAttname,
       Entity.get, pkText] using h⟩

/-! ## C1 -/

/-- C1: for an entity whose primary key is null, with the conventional
primary-key attribute and no force_update, save() issues exactly one POST,
targeted at the resolved collection URL (whatever the server answers), and
on a 2xx response the saved entity is the decoded response body — its
primary-key attribute is therefore exactly the primary-key value decoded
from the server's response.  force_insert does not change the outcome
(after the assertion it is never consulted, models.py:378). -/
theorem c1_null_pk_single_post (srv : Server) (cfg : Config)
    (a m pkA u : String) (e : Entity) (fi : Bool)
    (hconv : pkA = "pk" ∨ pkA = "id") (hpk : e.get pkA = none) :
    (save srv cfg (.mk a m pkA u []) e fi false).trace =
      [⟨.post, (get_resource_url_list cfg (.mk a m pkA u [])).url⟩] ∧
    (∀ body attrs,
      srv .post (get_resource_url_list cfg (.mk a m pkA u [])).url = .ok body →
      decodeBody (remapResponse cfg.nameMapping body) = some attrs →
      (save srv cfg (.mk a m pkA u []) e fi false).result = .ok (⟨attrs⟩, false)) := by
  have hsl : save srv cfg (.mk a m pkA u []) e fi false =
      sliceDispatch srv cfg (.mk a m pkA u []) (.mk a m pkA u []) e false := by
    rw [save_no_parents]; simp
  rw [hsl]
  constructor
  · cases hresp : srv .post (get_resource_url_list cfg (.mk a m pkA u [])).url with
    | ok body =>
        simp [sliceDispatch, dispatchStep, EType.pkAttname, hconv, hpk, hresp]
    | error err =>
        cases err <;>
          simp [sliceDispatch, dispatchStep, EType.pkAttname, hconv, hpk, hresp]
  · intro body attrs hresp hdec
    simp [sliceDispatch, dispatchStep, EType.pkAttname, hconv, hpk, hresp,
      reconcile, hdec]

/-- C1 witness: a fresh entity is created by one POST to the collection URL
and adopts the server-assigned primary key 42. -/
theorem c1_null_pk_single_post_witness :
    (save
        (fun mth url =>
          if mth = Method.post ∧ url = "http://s/p/" then
            .ok "\x7b\"id\": 42, \"title\": \"T\"\x7d"
          else .error .resourceNotFound)
        ⟨[], []⟩ (.mk "app" "page" "id" "http://s/p/" [])
        ⟨[("id", none), ("title", some "T")]⟩ false false).trace =
      [⟨.post, "http://s/p/"⟩] ∧
    (save
        (fun mth url =>
          if mth = Method.post ∧ url = "http://s/p/" then
            .ok "\x7b\"id\": 42, \"title\": \"T\"\x7d"
          else .error .resourceNotFound)
        ⟨[], []⟩ (.mk "app" "page" "id" "http://s/p/" [])
        ⟨[("id", none), ("title", some "T")]⟩ false false).result =
      .ok (⟨[("id", some "42"), ("title", some "T")]⟩, false) := by
  have h := c1_null_pk_single_post
    (fun mth url =>
      if mth = Method.post ∧ url = "http://s/p/" then
        .ok "\x7b\"id\": 42, \"title\": \"T\"\x7d"
      else .error .resourceNotFound)
    ⟨[], []⟩ "app" "page" "id" "http://s/p/"
    ⟨[("id", none), ("title", some "T")]⟩ false (Or.inr rfl) (by decide)
  refine ⟨?_, ?_⟩
  · have := h.1
    simpa [get_resource_url_list, EType.appLabel, EType.moduleName,
      EType.defaultListUrl] using this
  · have := h.2 "\x7b\"id\": 42, \"title\": \"T\"\x7d"
      [("id", some "42"), ("title", some "T")] (by decide) (by decide)
    simpa using this

/-! ## C3 -/

/-- C3: for an entity with a non-null primary key under the conventional
primary-key attribute and without force_insert, save() issues exactly one
PUT, targeted at the detail URL, and no POST — whatever the server answers
and whether or not force_update was requested; on a 2xx response the entity
is reconciled to the decoded body with `record_exists` true. -/
theorem c3_set_pk_single_put (srv : Server) (cfg : Config)
    (a m pkA u : String) (e : Entity) (v : String) (fu : Bool)
    (hconv : pkA = "pk" ∨ pkA = "id") (hpk : e.get pkA = some v) :
    (save srv cfg (.mk a m pkA u []) e false fu).trace =
      [⟨.put, get_resource_url_detail cfg (.mk a m pkA u []) e⟩] ∧
    (∀ body attrs,
      srv .put (get_resource_url_detail cfg (.mk a m pkA u []) e) = .ok body →
      decodeBody (remapResponse cfg.nameMapping body) = some attrs →
      (save srv cfg (.mk a m pkA u []) e false fu).result = .ok (⟨attrs⟩, true)) := by
  have hsl : save srv cfg (.mk a m pkA u []) e false fu =
      sliceDispatch srv cfg (.mk a m pkA u []) (.mk a m pkA u []) e fu := by
    rw [save_no_parents]; simp
  rw [hsl]
  constructor
  · cases hresp : srv .put (get_resource_url_detail cfg (.mk a m pkA u []) e) with
    | ok body =>
        simp [sliceDispatch, dispatchStep, EType.pkAttname, hconv, hpk, hresp]
    | error err =>
        cases err <;>
          simp [sliceDispatch, dispatchStep, EType.pkAttname, hconv, hpk, hresp]
  · intro body attrs hresp hdec
    simp [sliceDispatch, dispatchStep, EType.pkAttname, hconv, hpk, hresp,
      reconcile, hdec]

/-- C3 witness: an entity with pk 5 is updated by one PUT to its detail URL
and no POST. -/
theorem c3_set_pk_single_put_witness :
    (save
        (fun mth url =>
          if mth = Method.put ∧ url = "http://s/p/5/" then
            .ok "\x7b\"id\": 5, \"title\": \"U\"\x7d"
          else .error .resourceNotFound)
        ⟨[], []⟩ (.mk "app" "page" "id" "http://s/p/" [])
        ⟨[("id", some "5"), ("title", some "T")]⟩ false false).trace =
      [⟨.put, "http://s/p/5/"⟩] ∧
    (save
        (fun mth url =>
          if mth = Method.put ∧ url = "http://s/p/5/" then
            .ok "\x7b\"id\": 5, \"title\": \"U\"\x7d"
          else .error .resourceNotFound)
        ⟨[], []⟩ (.mk "app" "page" "id" "http://s/p/" [])
        ⟨[("id", some "5"), ("title", some "T")]⟩ false false).result =
      .ok (⟨[("id", some "5"), ("title", some "U")]⟩, true) := by
  have h := c3_set_pk_single_put
    (fun mth url =>
      if mth = Method.put ∧ url = "http://s/p/5/" then
        .ok "\x7b\"id\": 5, \"title\": \"U\"\x7d"
      else .error .resourceNotFound)
    ⟨[], []⟩ "app" "page" "id" "http://s/p/"
    ⟨[("id", some "5"), ("title", some "T")]⟩ "5" false (Or.inr rfl) (by decide)
  refine ⟨?_, ?_⟩
  · have := h.1
    simpa [get_resource_url_detail, get_resource_url_list, EType.pkAttname,
      EType.appLabel, EType.moduleName, EType.defaultListUrl, Entity.get,
      pkText] using this
  · have := h.2 "\x7b\"id\": 5, \"title\": \"U\"\x7d"
      [("id", some "5"), ("title", some "U")]
      (by decide) (by decide)
    simpa using this

/-! ## C2 -/

/-- C2 counterexample: the claim's "any transport failure flips existence"
fails for a transport error other than `ResourceNotFound`/`RequestFailed`.
With a custom-primary-key entity whose existence-check GET fails with a
redirect-limit violation, save() does not fall back to a POST: the error
escapes the two `except` clauses of models.py:372-376 and propagates, the
trace holding the GET alone. -/
theorem c2_counterexample_redirect_limit_propagates :
    save (fun mth _ => if mth = Method.get then .error .redirectLimit
        else .error .resourceNotFound)
      ⟨[], []⟩ (.mk "app" "slugpage" "slug" "http://s/sp/" [])
      ⟨[("slug", some "x")]⟩ false false =
      ⟨.error (.transport .redirectLimit, ⟨[("slug", some "x")]⟩),
       [⟨.get, "http://s/sp/x/"⟩]⟩ ∧
    ((save (fun mth _ => if mth = Method.get then .error .redirectLimit
        else .error .resourceNotFound)
      ⟨[], []⟩ (.mk "app" "slugpage" "slug" "http://s/sp/" [])
      ⟨[("slug", some "x")]⟩ false false).trace.filter
        (fun r => r.method == Method.post)) = [] := by
  decide

/-- C2 amended: for an entity whose declared primary-key attribute is not
the conventional `pk`/`id`, save() first issues a GET against the detail
URL; if that GET fails with `ResourceNotFound` or `RequestFailed`, save()
then issues a POST to the collection URL and never a PUT, whatever the
response to the POST.  Other transport failures of the GET (for example a
redirect-limit violation) are not caught: they propagate and no POST is
issued. -/
theorem c2_custom_pk_notfound_then_post (srv : Server) (cfg : Config)
    (a m pkA u : String) (e : Entity)
    (hcust : ¬ (pkA = "pk" ∨ pkA = "id"))
    (hget : srv .get (get_resource_url_detail cfg (.mk a m pkA u []) e) =
        .error .resourceNotFound ∨
      ∃ msg st, srv .get (get_resource_url_detail cfg (.mk a m pkA u []) e) =
        .error (.requestFailed msg st)) :
    (save srv cfg (.mk a m pkA u []) e false false).trace =
      [⟨.get, get_resource_url_detail cfg (.mk a m pkA u []) e⟩,
       ⟨.post, (get_resource_url_list cfg (.mk a m pkA u [])).url⟩] := by
  have hsl : save srv cfg (.mk a m pkA u []) e false false =
      sliceDispatch srv cfg (.mk a m pkA u []) (.mk a m pkA u []) e false := by
    rw [save_no_parents]; simp
  rw [hsl]
  rcases hget with hget | ⟨msg, st, hget⟩ <;>
  · cases hresp : srv .post (get_resource_url_list cfg (.mk a m pkA u [])).url with
    | ok body =>
        simp [sliceDispatch, dispatchStep, EType.pkAttname, hcust, hget, hresp]
    | error err =>
        cases err <;>
          simp [sliceDispatch, dispatchStep, EType.pkAttname, hcust, hget, hresp]

/-- C2 witness: a slug-keyed entity whose remote counterpart is missing is
probed with a GET and then created with a POST. -/
theorem c2_custom_pk_notfound_then_post_witness :
    (save
        (fun mth url =>
          if mth = Method.post ∧ url = "http://s/sp/" then
            .ok "\x7b\"slug\": \"x\", \"title\": \"T\"\x7d"
          else .error .resourceNotFound)
        ⟨[], []⟩ (.mk "app" "slugpage" "slug" "http://s/sp/" [])
        ⟨[("slug", some "x"), ("title", some "T")]⟩ false false).trace =
      [⟨.get, "http://s/sp/x/"⟩, ⟨.post, "http://s/sp/"⟩] := by
  have h := c2_custom_pk_notfound_then_post
    (fun mth url =>
      if mth = Method.post ∧ url = "http://s/sp/" then
        .ok "\x7b\"slug\": \"x\", \"title\": \"T\"\x7d"
      else .error .resourceNotFound)
    ⟨[], []⟩ "app" "slugpage" "slug" "http://s/sp/"
    ⟨[("slug", some "x"), ("title", some "T")]⟩ (by decide) (Or.inl (by decide))
  simpa [get_resource_url_detail, get_resource_url_list, EType.pkAttname,
    EType.appLabel, EType.moduleName, EType.defaultListUrl, Entity.get,
    pkText] using h

/-! ## C6 -/

/-- C6 counterexample: a transport failure of the dispatch PUT that is not a
`RequestFailed` is not wrapped into a `ROAException`.  When the PUT fails
with a redirect-limit violation, the error escapes the
`except RequestFailed` clause of models.py:390 and propagates raw: save()
aborts, but not with a `ROAException`. -/
theorem c6_counterexample_redirect_limit_not_wrapped :
    save (fun _ _ => .error .redirectLimit) ⟨[], []⟩
      (.mk "app" "page" "id" "http://s/p/" []) ⟨[("id", some "5")]⟩ false false =
      ⟨.error (.transport .redirectLimit, ⟨[("id", some "5")]⟩),
       [⟨.put, "http://s/p/5/"⟩]⟩ ∧
    raisedROAException
      (save (fun _ _ => .error .redirectLimit) ⟨[], []⟩
        (.mk "app" "page" "id" "http://s/p/" []) ⟨[("id", some "5")]⟩ false false) =
      false := by
  decide

/-- C6 amended: if the single PUT or POST issued in the DISPATCH step fails,
a `RequestFailed` failure is wrapped and raised as a `ROAException`, while
any other transport failure propagates unwrapped; in every failure case the
RECONCILE step is not attempted and the entity carried by the error is
exactly the entity DISPATCH began with, the trace holding that one request
alone. -/
theorem c6_dispatch_failure_halts_before_reconcile (srv : Server) (cfg : Config)
    (a m pkA u : String) (err : TransportError)
    (hconv : pkA = "pk" ∨ pkA = "id") :
    (∀ (e : Entity) (v : String), e.get pkA = some v →
      srv .put (get_resource_url_detail cfg (.mk a m pkA u []) e) = .error err →
      save srv cfg (.mk a m pkA u []) e false false =
        ⟨.error (dispatchErrorOf err, e),
         [⟨.put, get_resource_url_detail cfg (.mk a m pkA u []) e⟩]⟩) ∧
    (∀ e : Entity, e.get pkA = none →
      srv .post (get_resource_url_list cfg (.mk a m pkA u [])).url = .error err →
      save srv cfg (.mk a m pkA u []) e false false =
        ⟨.error (dispatchErrorOf err, e),
         [⟨.post, (get_resource_url_list cfg (.mk a m pkA u [])).url⟩]⟩) := by
  constructor
  · intro e v hpk hput
    have hsl : save srv cfg (.mk a m pkA u []) e false false =
        sliceDispatch srv cfg (.mk a m pkA u []) (.mk a m pkA u []) e false := by
      rw [save_no_parents]; simp
    rw [hsl]
    cases err <;>
      simp [sliceDispatch, dispatchStep, EType.pkAttname, hconv, hpk, hput,
        dispatchErrorOf]
  · intro e hpk hpost
    have hsl : save srv cfg (.mk a m pkA u []) e false false =
        sliceDispatch srv cfg (.mk a m pkA u []) (.mk a m pkA u []) e false := by
      rw [save_no_parents]; simp
    rw [hsl]
    cases err <;>
      simp [sliceDispatch, dispatchStep, EType.pkAttname, hconv, hpk, hpost,
        dispatchErrorOf]

/-- C6 witness: a failed PUT (non-2xx) aborts as a `ROAException` with the
entity unchanged, and a failed POST does the same for a fresh entity. -/
theorem c6_dispatch_failure_halts_before_reconcile_witness :
    save (fun _ _ => .error (.requestFailed "boom" 500)) ⟨[], []⟩
      (.mk "app" "page" "id" "http://s/p/" []) ⟨[("id", some "5")]⟩ false false =
      ⟨.error (.roaException (.requestFailed "boom" 500), ⟨[("id", some "5")]⟩),
       [⟨.put, "http://s/p/5/"⟩]⟩ ∧
    save (fun _ _ => .error (.requestFailed "boom" 500)) ⟨[], []⟩
      (.mk "app" "page" "id" "http://s/p/" []) ⟨[("id", none)]⟩ false false =
      ⟨.error (.roaException (.requestFailed "boom" 500), ⟨[("id", none)]⟩),
       [⟨.post, "http://s/p/"⟩]⟩ := by
  have h := c6_dispatch_failure_halts_before_reconcile
    (fun _ _ => .error (.requestFailed "boom" 500)) ⟨[], []⟩
    "app" "page" "id" "http://s/p/" (.requestFailed "boom" 500) (Or.inr rfl)
  refine ⟨?_, ?_⟩
  · have := h.1 ⟨[("id", some "5")]⟩ "5" (by decide) (by decide)
    simpa [get_resource_url_detail, get_resource_url_list, EType.pkAttname,
      EType.appLabel, EType.moduleName, EType.defaultListUrl, Entity.get,
      pkText, dispatchErrorOf] using this
  · have := h.2 ⟨[("id", none)]⟩ (by decide) (by decide)
    simpa [get_resource_url_list, EType.appLabel, EType.moduleName,
      EType.defaultListUrl, dispatchErrorOf] using this

/-! ## C4 -/

/-- Setting an attribute makes it the value `getattr` reads back. -/
theorem Entity.get_set_self (e : Entity) (a : String) (v : Option String) :
    (e.set a v).get a = v := by
  simp [Entity.get, Entity.set, List.lookup]

/-- C4 counterexample: a freshly created multi-table child does not issue
exactly one request of its own after the parent's save.  The child's
primary-key attribute is the auto-created parent link
(`parentpage_ptr_id`), which is not the conventional `pk`/`id`, so after
the parent's single POST and the pk copy the child issues an
existence-check GET *and* a dispatch POST: two requests, not one (the trace
after the parent's request has length two). -/
theorem c4_counterexample_child_issues_two_requests :
    save
      (fun mth url =>
        if mth = Method.post ∧ url = "http://s/cp/" then
          .ok "\x7b\"id\": 7, \"title\": \"T\"\x7d"
        else .error .resourceNotFound)
      ⟨[], []⟩
      (.mk "app" "childpage" "parentpage_ptr_id" "http://s/cp/"
        [(.mk "app" "parentpage" "id" "http://s/pp/" [], some "parentpage_ptr_id")])
      ⟨[("id", none), ("parentpage_ptr_id", none), ("title", some "T")]⟩
      false false =
      ⟨.ok (⟨[("id", some "7"), ("title", some "T")]⟩, false),
       [⟨.post, "http://s/cp/"⟩, ⟨.get, "http://s/cp/7/"⟩, ⟨.post, "http://s/cp/"⟩]⟩ ∧
    ((save
      (fun mth url =>
        if mth = Method.post ∧ url = "http://s/cp/" then
          .ok "\x7b\"id\": 7, \"title\": \"T\"\x7d"
        else .error .resourceNotFound)
      ⟨[], []⟩
      (.mk "app" "childpage" "parentpage_ptr_id" "http://s/cp/"
        [(.mk "app" "parentpage" "id" "http://s/pp/" [], some "parentpage_ptr_id")])
      ⟨[("id", none), ("parentpage_ptr_id", none), ("title", some "T")]⟩
      false false).trace.drop 1).length = 2 := by
  decide

/-- C4 amended: saving a child entity of a multi-table pair with an unset
parent link first runs the save protocol for the parent slice (one dispatch
request, resolved against the child instance's URLs), then copies the
parent's reconciled primary key into the child's link field, and only
afterwards issues the child's own requests: an existence-check GET against
the detail URL built from the copied pk (the child's primary-key attribute
is the parent link, a non-conventional name) followed by exactly one
dispatch request for the child. -/
theorem c4_parent_first_then_link_copy_then_child (srv : Server) (cfg : Config)
    (aP mP uP aC mC uC f v body : String) (e : Entity)
    (attrs : List (String × Option String))
    (hcust : ¬ (f = "pk" ∨ f = "id"))
    (hpkP : e.get "id" = none)
    (hlink : e.get f = none)
    (hpost : srv .post (get_resource_url_list cfg
        (.mk aC mC f uC [(.mk aP mP "id" uP [], some f)])).url = .ok body)
    (hdec : decodeBody (remapResponse cfg.nameMapping body) = some attrs)
    (hv : (Entity.mk attrs).get "id" = some v)
    (hget : srv .get ((get_resource_url_list cfg
        (.mk aC mC f uC [(.mk aP mP "id" uP [], some f)])).url ++ v ++ "/") =
      .error .resourceNotFound) :
    save srv cfg (.mk aC mC f uC [(.mk aP mP "id" uP [], some f)]) e false false =
      ⟨.ok (⟨attrs⟩, false),
       [⟨.post, (get_resource_url_list cfg
          (.mk aC mC f uC [(.mk aP mP "id" uP [], some f)])).url⟩,
        ⟨.get, (get_resource_url_list cfg
          (.mk aC mC f uC [(.mk aP mP "id" uP [], some f)])).url ++ v ++ "/"⟩,
        ⟨.post, (get_resource_url_list cfg
          (.mk aC mC f uC [(.mk aP mP "id" uP [], some f)])).url⟩]⟩ := by
  have hP : ("id" : String) = "pk" ∨ ("id" : String) = "id" := Or.inr rfl
  simp [save, save_base, saveParents, sliceDispatch, dispatchStep, reconcile,
    EType.pkAttname, Entity.get_set_self, pkText, get_resource_url_detail,
    hP, hcust, hpkP, hlink, hpost, hdec, hv, hget]

/-- C4 witness: the concrete parent/child pair of the amended theorem. -/
theorem c4_parent_first_then_link_copy_then_child_witness :
    save
      (fun mth url =>
        if mth = Method.post ∧ url = "http://s/cp/" then
          .ok "\x7b\"id\": 9, \"title\": \"W\"\x7d"
        else .error .resourceNotFound)
      ⟨[], []⟩
      (.mk "app" "childpage" "parentpage_ptr_id" "http://s/cp/"
        [(.mk "app" "parentpage" "id" "http://s/pp/" [], some "parentpage_ptr_id")])
      ⟨[("id", none), ("parentpage_ptr_id", none), ("title", some "W")]⟩
      false false =
      ⟨.ok (⟨[("id", some "9"), ("title", some "W")]⟩, false),
       [⟨.post, "http://s/cp/"⟩, ⟨.get, "http://s/cp/9/"⟩, ⟨.post, "http://s/cp/"⟩]⟩ := by
  have h := c4_parent_first_then_link_copy_then_child
    (fun mth url =>
      if mth = Method.post ∧ url = "http://s/cp/" then
        .ok "\x7b\"id\": 9, \"title\": \"W\"\x7d"
      else .error .resourceNotFound)
    ⟨[], []⟩ "app" "parentpage" "http://s/pp/" "app" "childpage" "http://s/cp/"
    "parentpage_ptr_id" "9" "\x7b\"id\": 9, \"title\": \"W\"\x7d"
    ⟨[("id", none), ("parentpage_ptr_id", none), ("title", some "W")]⟩
    [("id", some "9"), ("title", some "W")]
    (by decide) (by decide) (by decide) (by decide) (by decide) (by decide)
    (by decide)
  simpa [get_resource_url_list, EType.appLabel, EType.moduleName,
    EType.defaultListUrl] using h
